import Mathlib

/-!
Verification development for the browser-side RL orientation-control
repository (Cannon.js physics + ONNX policy).  The repository carries
several iterations of the same modules; the relevant sources are:

* `inference.js`, second document: `PhysicsSimulation` with the 23-feature
  `getObservation`, torque ramping in `step`, `setAction` with the
  PyBullet/Cannon axis conversion, `reset`, `_updateHistory`, `getState`,
  and the drag interaction (`grabBox` / `moveGrabbed` / `releaseBox`).
* `inference.js`, first document: `InferenceManager` with
  `normalizeQuaternion` and the static `canonicalizeQuaternion`.
* `unnamed/part_000`: the newest `SimulationController`, whose
  `predictAndApplyAction` swizzles the raw quaternion into the Training
  frame, builds the 23-feature observation, and keeps its own
  orientation/action history in the Training frame.
* `static/js/simulation.js`: an earlier `SimulationController` whose
  `predictAndApplyAction` returns early with a zero action when no
  predicted quaternion is present.

Numeric model: exact rational arithmetic (`ℚ`) for the state machines
(the operations involved are permutations, negations, additions,
multiplications and clamps, all exact), and real arithmetic (`ℝ`) where
`Math.sqrt` appears (quaternion normalization).  A JS NaN arising from
arithmetic on an `undefined` property read is modelled explicitly by
`JsNum.nan`.
-/

/-- A 3-vector with rational components, standing for a JS `[x, y, z]`
array or `CANNON.Vec3`. -/
structure V3 where
  x : ℚ
  y : ℚ
  z : ℚ
deriving DecidableEq, Repr

/-- A quaternion with rational components in `[x, y, z, w]` order, the
order used throughout the repository. -/
structure Q4 where
  x : ℚ
  y : ℚ
  z : ℚ
  w : ℚ
deriving DecidableEq, Repr

/-- Squared norm of a rational quaternion. -/
def qnormSqQ (q : Q4) : ℚ :=
  q.x * q.x + q.y * q.y + q.z * q.z + q.w * q.w

/-- Runtime→Training conversion of a 3-vector.  Embeds the swizzle in
`part_000` `predictAndApplyAction`: `trainingQuat = {x: raw[0], y: raw[2],
z: -raw[1]}` and `trainingAngVelEst = [raw[0], raw[2], -raw[1]]`. -/
def frameRuntimeToTraining (v : V3) : V3 :=
  ⟨v.x, v.z, -v.y⟩

/-- Training→Runtime conversion of a 3-vector.  Embeds
`PhysicsSimulation.setAction` (inference.js): `x_axis = action[0];
y_axis = -action[2]; z_axis = action[1]`. -/
def frameTrainingToRuntime (v : V3) : V3 :=
  ⟨v.x, -v.z, v.y⟩

/-- Runtime→Training swizzle of a quaternion: the vector part is
converted, the scalar part kept (`part_000` lines 175–180). -/
def swizzleQuatRT (q : Q4) : Q4 :=
  ⟨q.x, q.z, -q.y, q.w⟩

/-- `quaternionToZAxis` (identical in physics.js and inference.js):
third column of the rotation matrix of the quaternion. -/
def quaternionToZAxis (q : Q4) : V3 :=
  ⟨2 * (q.x * q.z + q.w * q.y),
   2 * (q.y * q.z - q.w * q.x),
   1 - 2 * (q.x * q.x + q.y * q.y)⟩

/-- `maxTorque` constant of the inference.js `PhysicsSimulation`
(`this.maxTorque = 0.5`). -/
def maxTorque : ℚ := 1 / 2

/-- `rampSpeed` constant of the inference.js `PhysicsSimulation`
(`this.rampSpeed = 0.5`). -/
def rampSpeed : ℚ := 1 / 2

/-- One axis of the per-substep torque update in
`PhysicsSimulation.step` (inference.js): low-pass filter
`applied*(1-rampSpeed) + target*rampSpeed`, then clamp to
`±maxTorque` via `Math.max(-maxTorque, Math.min(maxTorque, ·))`. -/
def rampClampAxis (applied target : ℚ) : ℚ :=
  max (-maxTorque) (min maxTorque (applied * (1 - rampSpeed) + target * rampSpeed))

/-- The vector form of the per-substep torque update, applied to each
of the three axes as in the body of the loop in `step`. -/
def rampClampVec (applied target : V3) : V3 :=
  ⟨rampClampAxis applied.x target.x,
   rampClampAxis applied.y target.y,
   rampClampAxis applied.z target.z⟩

/-- `n` consecutive per-substep torque updates against a fixed target
(the target is recomputed each substep from the same `currentAction`,
hence constant across the substeps of one `step` call). -/
def rampIterVec : ℕ → V3 → V3 → V3
  | 0, applied, _ => applied
  | n + 1, applied, target => rampIterVec n (rampClampVec applied target) target

/-- The tracked body, projected to the fields the claims read:
position and orientation (raw Runtime frame, as Cannon.js stores
them). -/
structure Body where
  pos : V3
  quat : Q4
deriving DecidableEq, Repr

/-- State of the inference.js `PhysicsSimulation`, projected to the
fields that the claimed operations read and write.  `oriHistory` and
`actionHistory` are the fixed 2-slot buffers (`.1` = slot 0, `.2` =
slot 1 = newest). -/
structure PhysState where
  boxBody : Option Body
  predictedQuaternion : Option Q4
  oriHistory : Q4 × Q4
  actionHistory : V3 × V3
  angVelEstimate : V3
  currentAction : V3
  targetTorque : V3
  currentTorqueApplied : V3
  stepCount : ℕ
deriving DecidableEq, Repr

/-- The constructor state of `PhysicsSimulation`: no body, no
prediction, zero counters.  (In the JS constructor the history arrays
are empty; no claimed operation reads them before `reset` fills them,
so they are modelled with identity/zero dummies.) -/
def initState : PhysState :=
  { boxBody := none
    predictedQuaternion := none
    oriHistory := (⟨0, 0, 0, 1⟩, ⟨0, 0, 0, 1⟩)
    actionHistory := (⟨0, 0, 0⟩, ⟨0, 0, 0⟩)
    angVelEstimate := ⟨0, 0, 0⟩
    currentAction := ⟨0, 0, 0⟩
    targetTorque := ⟨0, 0, 0⟩
    currentTorqueApplied := ⟨0, 0, 0⟩
    stepCount := 0 }

/-- `PhysicsSimulation.reset` (inference.js): recreate the body at
position `(0, 1.5, 0)` with the randomly drawn orientation
`randomQuat` (passed here as a parameter standing for the
`setFromAxisAngle` result), zero the counters and torques, fill both
orientation-history slots with `randomQuat`, zero the action history
and the angular-velocity estimate, and clear the prediction. -/
def resetSim (randomQuat : Q4) (s : PhysState) : PhysState :=
  { s with
    boxBody := some ⟨⟨0, 3/2, 0⟩, randomQuat⟩
    stepCount := 0
    currentAction := ⟨0, 0, 0⟩
    currentTorqueApplied := ⟨0, 0, 0⟩
    targetTorque := ⟨0, 0, 0⟩
    oriHistory := (randomQuat, randomQuat)
    actionHistory := (⟨0, 0, 0⟩, ⟨0, 0, 0⟩)
    angVelEstimate := ⟨0, 0, 0⟩
    predictedQuaternion := none }

/-- Clamp to `[-1, 1]`, as in `_updateHistory`:
`Math.max(-1.0, Math.min(1.0, dq[i]))`. -/
def clampUnit (v : ℚ) : ℚ := max (-1) (min 1 v)

/-- `PhysicsSimulation._updateHistory` (inference.js): shift the
orientation history (slot 0 ← slot 1, slot 1 ← current body
quaternion) and set the angular-velocity estimate to the clamped
per-component difference of the two slots.  (The JS code reads
`boxBody` unconditionally; the `none` branch is unreachable from
`step`.) -/
def updateHistory (s : PhysState) : PhysState :=
  match s.boxBody with
  | none => s
  | some b =>
    let slot0 := s.oriHistory.2
    let slot1 := b.quat
    { s with
      oriHistory := (slot0, slot1)
      angVelEstimate :=
        ⟨clampUnit (slot1.x - slot0.x),
         clampUnit (slot1.y - slot0.y),
         clampUnit (slot1.z - slot0.z)⟩ }

/-- `PhysicsSimulation.step(numSteps)` (inference.js), with the Cannon
integrator abstracted: `bodyAfter` is the body produced by the `n`
`world.step` calls (it also absorbs the random disturbance torque,
which only influences the body).  The controller part is exact: each
substep recomputes `targetTorque = currentAction * maxTorque` and runs
the ramp-and-clamp update on `currentTorqueApplied`; `stepCount`
increments once per substep; `_updateHistory` runs after all
substeps. -/
def stepSim (bodyAfter : Body) (n : ℕ) (s : PhysState) : PhysState :=
  let target : V3 := ⟨s.currentAction.x * maxTorque,
                      s.currentAction.y * maxTorque,
                      s.currentAction.z * maxTorque⟩
  updateHistory
    { s with
      boxBody := some bodyAfter
      targetTorque := target
      currentTorqueApplied := rampIterVec n s.currentTorqueApplied target
      stepCount := s.stepCount + n }

/-- The `terminated` field of `PhysicsSimulation.getState`
(inference.js and physics.js): `stepCount >= 500 || pos.y < 0.05`.
`none` when no body exists (the JS code would fault there). -/
def getStateTerminated (s : PhysState) : Option Bool :=
  s.boxBody.map fun b => decide (500 ≤ s.stepCount) || decide (b.pos.y < 1/20)

/-- A JS number that may be NaN (the value produced by arithmetic on
an `undefined` property read). -/
inductive JsNum where
  | num (q : ℚ)
  | nan
deriving DecidableEq, Repr

/-- `PhysicsSimulation.getObservation` (inference.js): with no body, a
zero-filled `Float32Array(23)`.  With a body it calls
`quaternionToZAxis(this.predictedQuaternion)`, and
`predictedQuaternion` is always either `null` or the plain array
returned by `normalizeQuaternion` (its only setter): on `null` the
property read `quat.x` throws a TypeError (modelled as `none`); on an
array the reads `quat.x`/`.y`/`.z`/`.w` yield `undefined`, so all six
z-axis entries of the observation (slots 5–10, the z-axis and its
"noisy" copy) evaluate to NaN (`JsNum.nan`), whatever the stored
prediction holds.  The remaining entries are the raw body quaternion
(4), history slot 0 (4), the angular-velocity estimate (3) and the two
action-history slots (3+3). -/
def getObservation (s : PhysState) : Option (List JsNum) :=
  match s.boxBody, s.predictedQuaternion with
  | none, _ => some (List.replicate 23 (JsNum.num 0))
  | some _, none => none
  | some b, some _ =>
    some [JsNum.num b.quat.x, JsNum.num b.quat.y, JsNum.num b.quat.z, JsNum.num b.quat.w,
          JsNum.nan, JsNum.nan, JsNum.nan,
          JsNum.nan, JsNum.nan, JsNum.nan,
          JsNum.num s.oriHistory.1.x, JsNum.num s.oriHistory.1.y,
          JsNum.num s.oriHistory.1.z, JsNum.num s.oriHistory.1.w,
          JsNum.num s.angVelEstimate.x, JsNum.num s.angVelEstimate.y,
          JsNum.num s.angVelEstimate.z,
          JsNum.num s.actionHistory.1.x, JsNum.num s.actionHistory.1.y,
          JsNum.num s.actionHistory.1.z,
          JsNum.num s.actionHistory.2.x, JsNum.num s.actionHistory.2.y,
          JsNum.num s.actionHistory.2.z]

/-- `PhysicsSimulation.setAction` (inference.js): converts the incoming
Training-frame action to the Cannon (Runtime) frame via
`(a0, -a2, a1)`, shifts the 2-slot action history and stores the
converted vector in the newest slot, and sets `currentAction` to the
converted vector. -/
def setActionPhys (a : V3) (s : PhysState) : PhysState :=
  let conv := frameTrainingToRuntime a
  { s with
    actionHistory := (s.actionHistory.2, conv)
    currentAction := conv }

/-- `PhysicsSimulation.setPredictedQuaternion` stores
`normalizeQuaternion(quat)`.  Over exact arithmetic the stored value
`p` relates to the input `q` by: either the norm of `q` is below
`1e-8` (equivalently its square below `1e-16`) and `p` is the
identity, or the norm is an exactly representable `n ≥ 1e-8` and `p`
is `q` scaled by `1/n`. -/
def NormalizesToQ (q p : Q4) : Prop :=
  (qnormSqQ q < 1e-16 ∧ p = ⟨0, 0, 0, 1⟩) ∨
  (∃ n : ℚ, 0 < n ∧ n * n = qnormSqQ q ∧ 1e-8 ≤ n ∧
    p = ⟨q.x / n, q.y / n, q.z / n, q.w / n⟩)

/-- Store a (already normalized) predicted quaternion, the state
effect of `setPredictedQuaternion`. -/
def setPredictedQ (p : Q4) (s : PhysState) : PhysState :=
  { s with predictedQuaternion := some p }

/-- States of the inference.js `PhysicsSimulation` reachable through
its public operations, with the stochastic draw of `reset` surfaced as
the unit quaternion it produces (`setFromAxisAngle` of a normalized
axis yields an exactly unit quaternion) and the normalization inside
`setPredictedQuaternion` captured by `NormalizesToQ`.  Every state
derivable here is genuinely reachable in the idealized (exact
arithmetic) semantics of the source. -/
inductive ReachablePhys : PhysState → Prop
  | init : ReachablePhys initState
  | resetR (q : Q4) (s : PhysState) :
      ReachablePhys s → qnormSqQ q = 1 → ReachablePhys (resetSim q s)
  | setPredR (q p : Q4) (s : PhysState) :
      ReachablePhys s → NormalizesToQ q p → ReachablePhys (setPredictedQ p s)
  | setActionR (a : V3) (s : PhysState) :
      ReachablePhys s → ReachablePhys (setActionPhys a s)

/-- The initial body orientation used in the concrete C1 state: the
unit quaternion of axis `(0, 1, 0)` and angle π (a draw `reset` can
produce). -/
def q0C1 : Q4 := ⟨0, 1, 0, 0⟩

/-- Concrete reachable `PhysicsSimulation` state for claim C1:
`reset` with orientation `q0C1`, then `setPredictedQuaternion` with
the identity quaternion. -/
def c1CexState : PhysState := setPredictedQ ⟨0, 0, 0, 1⟩ (resetSim q0C1 initState)

/-- The observation `getObservation` produces at `c1CexState`: the raw
body quaternion, six NaN z-axis slots, then history slot 0, the
angular-velocity estimate and the action history. -/
def c1Obs : List JsNum :=
  [JsNum.num 0, JsNum.num 1, JsNum.num 0, JsNum.num 0,
   JsNum.nan, JsNum.nan, JsNum.nan,
   JsNum.nan, JsNum.nan, JsNum.nan,
   JsNum.num 0, JsNum.num 1, JsNum.num 0, JsNum.num 0,
   JsNum.num 0, JsNum.num 0, JsNum.num 0,
   JsNum.num 0, JsNum.num 0, JsNum.num 0,
   JsNum.num 0, JsNum.num 0, JsNum.num 0]

/-- State of the `part_000` `SimulationController`'s own history
(`oriHistory`, `actionHistory`, `_lastRawQuat`). -/
structure CtrlState where
  oriHistory : Q4 × Q4
  actionHistory : V3 × V3
  lastRawQuat : Option Q4
deriving DecidableEq, Repr

/-- Constructor state of the `part_000` controller: both orientation
slots hold the identity, both action slots zero, no raw quaternion
seen yet. -/
def ctrlInit : CtrlState :=
  { oriHistory := (⟨0, 0, 0, 1⟩, ⟨0, 0, 0, 1⟩)
    actionHistory := (⟨0, 0, 0⟩, ⟨0, 0, 0⟩)
    lastRawQuat := none }

/-- The 23-feature Training-frame observation assembled in `part_000`
`predictAndApplyAction` (lines 207–216): current Training quaternion,
z-axis twice, history slot 0, Training angular-velocity estimate,
action history slots 0 and 1. -/
def part000Observation (tq : Q4) (zA : V3) (slot0 : Q4) (tAng a0 a1 : V3) : List ℚ :=
  [tq.x, tq.y, tq.z, tq.w,
   zA.x, zA.y, zA.z,
   zA.x, zA.y, zA.z,
   slot0.x, slot0.y, slot0.z, slot0.w,
   tAng.x, tAng.y, tAng.z,
   a0.x, a0.y, a0.z,
   a1.x, a1.y, a1.z]

/-- The main branch of `part_000` `predictAndApplyAction` once a raw
(Runtime-frame) quaternion is in hand: swizzle it to the Training
frame, compute the z-axis from the swizzled quaternion, form the raw
finite-difference angular velocity against `_lastRawQuat` (defaulting
to the current raw quaternion) and swizzle it, build the observation,
query the policy, and shift both history buffers — the orientation
history receives the Training-frame quaternion, the action history the
policy's Training-frame action.  Returns the action handed to
`physics.setAction` together with the new controller state. -/
def part000Go (policy : List ℚ → V3) (rawQuat : Q4) (c : CtrlState) : V3 × CtrlState :=
  let tq := swizzleQuatRT rawQuat
  let zA := quaternionToZAxis tq
  let prevRaw := c.lastRawQuat.getD rawQuat
  let rawAng : V3 := ⟨rawQuat.x - prevRaw.x, rawQuat.y - prevRaw.y, rawQuat.z - prevRaw.z⟩
  let tAng := frameRuntimeToTraining rawAng
  let obs := part000Observation tq zA c.oriHistory.1 tAng c.actionHistory.1 c.actionHistory.2
  let action := policy obs
  (action,
    { oriHistory := (c.oriHistory.2, tq)
      actionHistory := (c.actionHistory.2, action)
      lastRawQuat := some rawQuat })

/-- `part_000` `SimulationController.predictAndApplyAction`, with the
policy network as an oracle function.  `pred` is
`physics.predictedQuaternion`; `bodyQuat` is the tracked body's raw
orientation when a body exists (`physics.getState().quaternion`, which
in physics.js is the uncanonicalized quaternion).  With no prediction
the code falls back to the ground-truth orientation; if there is no
body either, `getState` throws, the `catch` sets the action to zero
and the controller state is left untouched. -/
def part000Predict (policy : List ℚ → V3) (pred bodyQuat : Option Q4)
    (c : CtrlState) : V3 × CtrlState :=
  match pred, bodyQuat with
  | some p, _ => part000Go policy p c
  | none, some bq => part000Go policy bq c
  | none, none => (⟨0, 0, 0⟩, c)

/-- History state of the older `simulation.js` controller (same shape,
no `_lastRawQuat`). -/
structure SimCtrlState where
  oriHistory : Q4 × Q4
  actionHistory : V3 × V3
deriving DecidableEq, Repr

/-- Constructor state of the `simulation.js` controller. -/
def simCtrlInit : SimCtrlState :=
  { oriHistory := (⟨0, 0, 0, 1⟩, ⟨0, 0, 0, 1⟩)
    actionHistory := (⟨0, 0, 0⟩, ⟨0, 0, 0⟩) }

/-- Sign canonicalization over `ℚ`, the logic shared by
`InferenceManager.canonicalizeQuaternion` and
`normalizeAndCanonicalizeQuaternion`: flip all four signs when
`w < 0` or (`w = 0` and `x < 0`). -/
def canonicalizeQ (q : Q4) : Q4 :=
  if q.w < 0 ∨ (q.w = 0 ∧ q.x < 0) then ⟨-q.x, -q.y, -q.z, -q.w⟩ else q

/-- `simulation.js` `SimulationController.predictAndApplyAction`:
if `physics.predictedQuaternion` is absent it immediately sets the
action to zero and returns, consulting neither the tracked body nor
the policy.  Otherwise it canonicalizes the normalized prediction
(the normalization, which needs `Math.sqrt`, is the oracle parameter
`normalizeFn`), builds a 23-entry observation in the raw frame, and
applies the policy's action.  Returns the action handed to
`physics.setAction` and the new history state. -/
def simCtrlPredict (normalizeFn : Q4 → Q4) (policy : List ℚ → V3)
    (pred : Option Q4) (c : SimCtrlState) : V3 × SimCtrlState :=
  match pred with
  | none => (⟨0, 0, 0⟩, c)
  | some pq =>
    let predQuat := canonicalizeQ (normalizeFn pq)
    let zA := quaternionToZAxis predQuat
    let prevQuat := c.oriHistory.2
    let angVelEst : V3 := ⟨predQuat.x - prevQuat.x, predQuat.y - prevQuat.y,
                           predQuat.z - prevQuat.z⟩
    let obs : List ℚ :=
      [predQuat.x, predQuat.y, predQuat.z, predQuat.w,
       zA.x, zA.y, zA.z,
       zA.x, zA.y, zA.z,
       c.oriHistory.1.x, c.oriHistory.1.y, c.oriHistory.1.z, c.oriHistory.1.w,
       angVelEst.x, angVelEst.y, angVelEst.z,
       c.actionHistory.1.x, c.actionHistory.1.y, c.actionHistory.1.z,
       c.actionHistory.2.x, c.actionHistory.2.y, c.actionHistory.2.z]
    let action := policy obs
    (action,
      { oriHistory := (c.oriHistory.2, predQuat)
        actionHistory := (c.actionHistory.2, action) })

/-- Drag operations of the mouse-interaction interface. -/
inductive DragOp
  | grab
  | move
  | release
deriving DecidableEq, Repr

/-- The constraint-relevant projection of the `World` plus the
`PhysicsSimulation` fields the drag interface touches:
`constraints` is the World's constraint list (ids stand for
`PointToPointConstraint` objects), `mouseConstraint` the instance
field, `hasMouseBody` whether the kinematic marker was created,
`hasBox` whether a tracked body exists, `nextId` a fresh-id supply. -/
structure DragState where
  constraints : List ℕ
  mouseConstraint : Option ℕ
  hasMouseBody : Bool
  hasBox : Bool
  nextId : ℕ
deriving DecidableEq, Repr

/-- Drag state right after `reset`: a tracked body exists, no marker
body, no constraint anywhere. -/
def dragInit : DragState :=
  { constraints := []
    mouseConstraint := none
    hasMouseBody := false
    hasBox := true
    nextId := 0 }

/-- One drag call, following `grabBox` / `moveGrabbed` / `releaseBox`
of the inference.js `PhysicsSimulation`.  `grabBox` returns early with
no body; otherwise it (creates the marker body if needed and) adds a
fresh constraint to the World and overwrites `mouseConstraint` —
without removing a previously registered constraint.  `moveGrabbed`
only moves the marker.  `releaseBox` removes `mouseConstraint` from
the World (if one is held) and clears the field. -/
def dragStep (s : DragState) : DragOp → DragState
  | .grab =>
    if s.hasBox then
      { s with
        hasMouseBody := true
        constraints := s.constraints ++ [s.nextId]
        mouseConstraint := some s.nextId
        nextId := s.nextId + 1 }
    else s
  | .move => s
  | .release =>
    match s.mouseConstraint with
    | some c => { s with constraints := s.constraints.erase c, mouseConstraint := none }
    | none => s

/-- Run a sequence of drag calls. -/
def runDrag (ops : List DragOp) (s : DragState) : DragState :=
  ops.foldl dragStep s

/-- `noDoubleGrab g ops`: no `grabBox` call occurs while a grab is
already active (`g` is whether a constraint is currently held).  This
is the usage discipline of mouse-down/up wiring. -/
def noDoubleGrab : Bool → List DragOp → Bool
  | _, [] => true
  | g, DragOp.grab :: t => !g && noDoubleGrab true t
  | _, DragOp.release :: t => noDoubleGrab false t
  | g, DragOp.move :: t => noDoubleGrab g t

/-- A quaternion over `ℝ`, for the normalization functions that divide
by `Math.sqrt` of the squared norm. -/
structure QuatR where
  x : ℝ
  y : ℝ
  z : ℝ
  w : ℝ

/-- Squared norm over `ℝ`. -/
def qnormSqR (q : QuatR) : ℝ :=
  q.x * q.x + q.y * q.y + q.z * q.z + q.w * q.w

/-- The norm computed in `normalizeQuaternion`:
`Math.sqrt(x*x + y*y + z*z + w*w)`. -/
noncomputable def qnormR (q : QuatR) : ℝ :=
  Real.sqrt (qnormSqR q)

/-- `normalizeQuaternion` (identical in `InferenceManager`,
`PhysicsSimulation` of inference.js, and physics.js): if the norm is
below `1e-8` return the identity `(0,0,0,1)`, else divide every
component by the norm. -/
noncomputable def normalizeQuaternionR (q : QuatR) : QuatR :=
  if qnormR q < 1e-8 then ⟨0, 0, 0, 1⟩
  else ⟨q.x / qnormR q, q.y / qnormR q, q.z / qnormR q, q.w / qnormR q⟩

/-- `InferenceManager.canonicalizeQuaternion` (and the sign step of
`normalizeAndCanonicalizeQuaternion`): flip all four signs when
`w < 0` or (`w == 0` and `x < 0`). -/
noncomputable def canonicalizeQuaternionR (q : QuatR) : QuatR :=
  if q.w < 0 ∨ (q.w = 0 ∧ q.x < 0) then ⟨-q.x, -q.y, -q.z, -q.w⟩ else q

/-- `PhysicsSimulation.normalizeAndCanonicalizeQuaternion`
(inference.js): normalize, then apply the sign flip. -/
noncomputable def normalizeAndCanonicalizeQuaternionR (q : QuatR) : QuatR :=
  canonicalizeQuaternionR (normalizeQuaternionR q)

/-- The body used in the concrete C7 scenario: resting pose well above
the floor threshold. -/
def c7Body : Body := ⟨⟨0, 3/2, 0⟩, ⟨0, 0, 0, 1⟩⟩

/-- Concrete C7 scenario state: reset, then one `step` call running
500 sub-steps with zero torque, the body staying at height 1.5. -/
def c7FinalState : PhysState := stepSim c7Body 500 (resetSim ⟨0, 0, 0, 1⟩ initState)

/-- Invariant of the drag interface: a tracked body exists, and the
World's constraint list is exactly the held constraint (empty when
none is held). -/
def DragInv (s : DragState) : Prop :=
  s.hasBox = true ∧
  match s.mouseConstraint with
  | none => s.constraints = []
  | some c => s.constraints = [c]

/-- Each torque axis is within `±maxTorque` right after one
ramp-and-clamp update. -/
theorem abs_rampClampAxis_le (a t : ℚ) : |rampClampAxis a t| ≤ maxTorque := by
  unfold rampClampAxis
  rw [abs_le]
  refine ⟨le_max_left _ _, max_le ?_ (min_le_left _ _)⟩
  unfold maxTorque
  norm_num

/-- After at least one ramp-and-clamp update, every axis of the
applied torque is within `±maxTorque`. -/
theorem abs_rampIterVec_le (n : ℕ) (a t : V3) :
    |(rampIterVec (n + 1) a t).x| ≤ maxTorque ∧
    |(rampIterVec (n + 1) a t).y| ≤ maxTorque ∧
    |(rampIterVec (n + 1) a t).z| ≤ maxTorque := by
  induction n generalizing a with
  | zero =>
    exact ⟨abs_rampClampAxis_le _ _, abs_rampClampAxis_le _ _, abs_rampClampAxis_le _ _⟩
  | succ m ih =>
    exact ih (rampClampVec a t)

/-- C2: the Runtime→Training conversion maps `(a, b, c)` to
`(a, c, −b)`, the Training→Runtime conversion maps `(a, b, c)` to
`(a, −c, b)`, and the two conversions are exact two-sided inverses on
every 3-vector (pure permutation and sign flip, no rounding). -/
theorem claim_C2_theorem (v : V3) :
    frameRuntimeToTraining v = ⟨v.x, v.z, -v.y⟩ ∧
    frameTrainingToRuntime v = ⟨v.x, -v.z, v.y⟩ ∧
    frameTrainingToRuntime (frameRuntimeToTraining v) = v ∧
    frameRuntimeToTraining (frameTrainingToRuntime v) = v := by
  obtain ⟨x, y, z⟩ := v
  refine ⟨rfl, rfl, ?_, ?_⟩ <;>
    simp [frameRuntimeToTraining, frameTrainingToRuntime]

/-- C3 counterexample: `PhysicsSimulation.setAction` (inference.js)
stores the Runtime-converted torque in the newest action-history slot,
not the Training-frame action it was given.  From the concrete
post-reset state, passing the Training-frame action `(0, 0, 1)` leaves
the newest slot holding `(0, −1, 0) ≠ (0, 0, 1)`. -/
theorem claim_C3_counterexample :
    (setActionPhys ⟨0, 0, 1⟩ (resetSim ⟨0, 0, 0, 1⟩ initState)).actionHistory.2
      = ⟨0, -1, 0⟩ ∧
    (⟨0, -1, 0⟩ : V3) ≠ ⟨0, 0, 1⟩ := by
  refine ⟨rfl, by decide⟩

/-- C3 (amended): `PhysicsSimulation.setAction` shifts the 2-slot
history and stores the Runtime-converted torque `(a0, −a2, a1)` — the
same vector it hands to `currentAction` — in the newest slot, while the
`part_000` controller's own action history stores the policy's
Training-frame action verbatim in its newest slot. -/
theorem claim_C3_theorem :
    (∀ (a : V3) (s : PhysState),
      (setActionPhys a s).actionHistory.2 = frameTrainingToRuntime a ∧
      (setActionPhys a s).actionHistory.1 = s.actionHistory.2 ∧
      (setActionPhys a s).currentAction = frameTrainingToRuntime a) ∧
    (∀ (policy : List ℚ → V3) (rq : Q4) (bq : Option Q4) (c : CtrlState),
      ((part000Predict policy (some rq) bq c).2).actionHistory.2
        = (part000Predict policy (some rq) bq c).1 ∧
      ((part000Predict policy (some rq) bq c).2).actionHistory.1
        = c.actionHistory.2) :=
  ⟨fun _ _ => ⟨rfl, rfl, rfl⟩, fun _ _ _ _ => ⟨rfl, rfl⟩⟩

/-- C4: the Torque Controller's ramp-and-clamp update keeps every axis
of the applied torque within `±maxTorque`, for every prior applied
value and every (arbitrarily extreme) target; consequently after any
`step` call with at least one sub-step the stored applied torque obeys
the bound on every axis. -/
theorem claim_C4_theorem :
    (∀ a t : V3,
      |(rampClampVec a t).x| ≤ maxTorque ∧
      |(rampClampVec a t).y| ≤ maxTorque ∧
      |(rampClampVec a t).z| ≤ maxTorque) ∧
    (∀ (b : Body) (n : ℕ) (s : PhysState), 1 ≤ n →
      |(stepSim b n s).currentTorqueApplied.x| ≤ maxTorque ∧
      |(stepSim b n s).currentTorqueApplied.y| ≤ maxTorque ∧
      |(stepSim b n s).currentTorqueApplied.z| ≤ maxTorque) := by
  constructor
  · intro a t
    exact ⟨abs_rampClampAxis_le _ _, abs_rampClampAxis_le _ _, abs_rampClampAxis_le _ _⟩
  · intro b n s hn
    obtain ⟨m, rfl⟩ : ∃ m, n = m + 1 := ⟨n - 1, by omega⟩
    have h := abs_rampIterVec_le m s.currentTorqueApplied
      ⟨s.currentAction.x * maxTorque, s.currentAction.y * maxTorque,
       s.currentAction.z * maxTorque⟩
    simpa [stepSim, updateHistory] using h

/-- C4 witness: the bound instantiated after a single sub-step from
the concrete post-reset state. -/
theorem claim_C4_witness :
    1 ≤ 1 ∧
    (|(stepSim c7Body 1 (resetSim ⟨0, 0, 0, 1⟩ initState)).currentTorqueApplied.x| ≤ maxTorque ∧
     |(stepSim c7Body 1 (resetSim ⟨0, 0, 0, 1⟩ initState)).currentTorqueApplied.y| ≤ maxTorque ∧
     |(stepSim c7Body 1 (resetSim ⟨0, 0, 0, 1⟩ initState)).currentTorqueApplied.z| ≤ maxTorque) :=
  ⟨le_refl 1, claim_C4_theorem.2 c7Body 1 (resetSim ⟨0, 0, 0, 1⟩ initState) (le_refl 1)⟩

/-- Evaluation of `getObservation` at the concrete C1 state. -/
theorem c1ObsEval : getObservation c1CexState = some c1Obs := rfl

/-- C1 counterexample: at the reachable state `c1CexState` (reset with
the unit quaternion `q0C1`, then a predicted quaternion stored), the
observation built by `PhysicsSimulation.getObservation` exists, its six
z-axis slots are NaN (the stored prediction is an array, so the
`.x`/`.y`/`.z`/`.w` reads in `quaternionToZAxis` give `undefined`), and
its first 4 entries are exactly the raw Runtime-frame orientation of
the tracked body — which differs from the Training-frame (swizzled)
version of the quaternion held in orientation-history slot 1,
contradicting the claim that the first 4 entries are that
Training-frame quaternion and not the raw Runtime-frame
orientation. -/
theorem claim_C1_counterexample :
    ReachablePhys c1CexState ∧
    getObservation c1CexState = some c1Obs ∧
    c1CexState.boxBody = some ⟨⟨0, 3/2, 0⟩, q0C1⟩ ∧
    c1Obs.take 4 = [JsNum.num q0C1.x, JsNum.num q0C1.y, JsNum.num q0C1.z, JsNum.num q0C1.w] ∧
    (c1Obs.drop 4).take 6 = List.replicate 6 JsNum.nan ∧
    c1CexState.oriHistory.2 = q0C1 ∧
    c1Obs.take 4 ≠ [JsNum.num (swizzleQuatRT q0C1).x, JsNum.num (swizzleQuatRT q0C1).y,
                    JsNum.num (swizzleQuatRT q0C1).z, JsNum.num (swizzleQuatRT q0C1).w] := by
  refine ⟨?_, c1ObsEval, rfl, rfl, rfl, rfl, by decide⟩
  have h0 : ReachablePhys (resetSim q0C1 initState) :=
    ReachablePhys.resetR q0C1 initState ReachablePhys.init (by norm_num [qnormSqQ, q0C1])
  exact ReachablePhys.setPredR ⟨0, 0, 0, 1⟩ ⟨0, 0, 0, 1⟩ _ h0
    (Or.inr ⟨1, by norm_num, by norm_num [qnormSqQ], by norm_num,
      by norm_num [Q4.mk.injEq]⟩)

/-- C1 (amended): every observation built has length exactly 23.  In
`PhysicsSimulation.getObservation` the first 4 entries are the raw
Runtime-frame orientation of the tracked body (the orientation history
of that class also holds Runtime-frame quaternions), and the six
z-axis slots are NaN because the stored predicted quaternion is a
plain array whose `.x`/`.y`/`.z`/`.w` property reads yield
`undefined`.  In the `part_000` controller the first 4 entries are the
Training-frame swizzle of the current raw quaternion, and that same
Training-frame quaternion is what the call then writes into
orientation-history slot 1. -/
theorem claim_C1_theorem :
    (∀ (s : PhysState) (obs : List JsNum), getObservation s = some obs → obs.length = 23) ∧
    (∀ (s : PhysState) (b : Body) (p : Q4) (obs : List JsNum),
      s.boxBody = some b → s.predictedQuaternion = some p →
      getObservation s = some obs →
      obs.take 4 = [JsNum.num b.quat.x, JsNum.num b.quat.y,
                    JsNum.num b.quat.z, JsNum.num b.quat.w] ∧
      (obs.drop 4).take 6 = List.replicate 6 JsNum.nan) ∧
    (∀ (policy : List ℚ → V3) (rq : Q4) (bq : Option Q4) (c : CtrlState),
      ((part000Predict policy (some rq) bq c).2).oriHistory.2 = swizzleQuatRT rq) ∧
    (∀ (tq : Q4) (zA : V3) (slot0 : Q4) (tAng a0 a1 : V3),
      (part000Observation tq zA slot0 tAng a0 a1).take 4 = [tq.x, tq.y, tq.z, tq.w] ∧
      (part000Observation tq zA slot0 tAng a0 a1).length = 23) := by
  refine ⟨?_, ?_, fun _ _ _ _ => rfl, fun _ _ _ _ _ _ => ⟨rfl, rfl⟩⟩
  · intro s obs h
    unfold getObservation at h
    split at h
    · simp only [Option.some.injEq] at h
      subst h
      rfl
    · exact absurd h (by simp)
    · simp only [Option.some.injEq] at h
      subst h
      rfl
  · intro s b p obs hb hp h
    have e : getObservation s
        = some [JsNum.num b.quat.x, JsNum.num b.quat.y, JsNum.num b.quat.z, JsNum.num b.quat.w,
                JsNum.nan, JsNum.nan, JsNum.nan,
                JsNum.nan, JsNum.nan, JsNum.nan,
                JsNum.num s.oriHistory.1.x, JsNum.num s.oriHistory.1.y,
                JsNum.num s.oriHistory.1.z, JsNum.num s.oriHistory.1.w,
                JsNum.num s.angVelEstimate.x, JsNum.num s.angVelEstimate.y,
                JsNum.num s.angVelEstimate.z,
                JsNum.num s.actionHistory.1.x, JsNum.num s.actionHistory.1.y,
                JsNum.num s.actionHistory.1.z,
                JsNum.num s.actionHistory.2.x, JsNum.num s.actionHistory.2.y,
                JsNum.num s.actionHistory.2.z] := by
      unfold getObservation
      rw [hb, hp]
    rw [e] at h
    simp only [Option.some.injEq] at h
    subst h
    exact ⟨rfl, rfl⟩

/-- C1 witness: the amended statement instantiated at the concrete
reachable state `c1CexState` and its observation `c1Obs`. -/
theorem claim_C1_witness :
    c1Obs.length = 23 ∧
    c1Obs.take 4 = [JsNum.num q0C1.x, JsNum.num q0C1.y, JsNum.num q0C1.z, JsNum.num q0C1.w] :=
  ⟨claim_C1_theorem.1 c1CexState c1Obs c1ObsEval,
   (claim_C1_theorem.2.1 c1CexState ⟨⟨0, 3/2, 0⟩, q0C1⟩ ⟨0, 0, 0, 1⟩ c1Obs
     rfl rfl c1ObsEval).1⟩

/-- C5 counterexample: in the `simulation.js` controller a missing
prediction immediately zeroes the torque — the policy is never
consulted and no ground-truth fallback happens — whereas the claim
demands the ground-truth fallback, under which the (here constant)
policy would have produced `(1, 1, 1)`; the `part_000` controller on
the same inputs does produce `(1, 1, 1)`. -/
theorem claim_C5_counterexample :
    (simCtrlPredict (fun q => q) (fun _ => ⟨1, 1, 1⟩) none simCtrlInit).1 = ⟨0, 0, 0⟩ ∧
    (part000Predict (fun _ => ⟨1, 1, 1⟩) none (some ⟨0, 0, 0, 1⟩) ctrlInit).1 = ⟨1, 1, 1⟩ ∧
    (⟨0, 0, 0⟩ : V3) ≠ ⟨1, 1, 1⟩ :=
  ⟨rfl, rfl, by decide⟩

/-- C5 (amended): in the `part_000` controller a missing prediction is
recovered by falling back to the tracked body's ground-truth
orientation — the call behaves exactly as if that orientation had been
the prediction — and only when neither a prediction nor a body is
available is the output torque set to zero (with the controller state
untouched).  The older `simulation.js` controller instead zeroes the
torque whenever the prediction is missing. -/
theorem claim_C5_theorem :
    (∀ (policy : List ℚ → V3) (bq : Q4) (c : CtrlState),
      part000Predict policy none (some bq) c = part000Predict policy (some bq) (some bq) c) ∧
    (∀ (policy : List ℚ → V3) (c : CtrlState),
      part000Predict policy none none c = (⟨0, 0, 0⟩, c)) ∧
    (∀ (normalizeFn : Q4 → Q4) (policy : List ℚ → V3) (c : SimCtrlState),
      simCtrlPredict normalizeFn policy none c = (⟨0, 0, 0⟩, c)) :=
  ⟨fun _ _ _ => rfl, fun _ _ => rfl, fun _ _ _ => rfl⟩

/-- C7: the `terminated` flag reported by `getState` is `true` exactly
when the step count has reached 500 or the tracked body's height is
below the 0.05 threshold; in particular once 500 sub-steps have
accumulated the flag is `true` from the step-count branch alone,
whatever the height. -/
theorem claim_C7_theorem (s : PhysState) (b : Body) (hb : s.boxBody = some b) :
    (getStateTerminated s = some true ↔ 500 ≤ s.stepCount ∨ b.pos.y < 1/20) ∧
    (500 ≤ s.stepCount → getStateTerminated s = some true) := by
  have h1 : getStateTerminated s
      = some (decide (500 ≤ s.stepCount) || decide (b.pos.y < 1/20)) := by
    unfold getStateTerminated
    rw [hb]
    rfl
  constructor
  · rw [h1]
    simp only [Option.some.injEq, Bool.or_eq_true, decide_eq_true_eq]
  · intro h
    rw [h1]
    simp [h]

/-- C7 witness: after a reset and one `step` call running 500
sub-steps with zero torque, the body still at height 1.5 (above the
0.05 floor threshold), `getState` reports `terminated = true`. -/
theorem claim_C7_witness :
    getStateTerminated c7FinalState = some true ∧ (1/20 : ℚ) ≤ c7Body.pos.y :=
  ⟨(claim_C7_theorem c7FinalState c7Body rfl).2 (by decide), by norm_num [c7Body]⟩

/-- C10: calling `getObservation` in a state with no tracked body does
not fault: it returns the zero-filled vector of length exactly 23. -/
theorem claim_C10_theorem (s : PhysState) (h : s.boxBody = none) :
    getObservation s = some (List.replicate 23 (JsNum.num 0)) ∧
    (getObservation s).map List.length = some 23 ∧
    ∀ x ∈ List.replicate 23 (JsNum.num 0), x = JsNum.num 0 := by
  have e : getObservation s = some (List.replicate 23 (JsNum.num 0)) := by
    unfold getObservation
    rw [h]
  refine ⟨e, by rw [e]; rfl, ?_⟩
  intro x hx
  exact List.eq_of_mem_replicate hx

/-- C10 witness: the constructor state (before `start`/`reset` has
created a body) yields the all-zero observation of length 23. -/
theorem claim_C10_witness :
    getObservation initState = some (List.replicate 23 (JsNum.num 0)) :=
  (claim_C10_theorem initState rfl).1

/-- `runDrag` distributes over list append. -/
theorem runDrag_append (a b : List DragOp) (s : DragState) :
    runDrag (a ++ b) s = runDrag b (runDrag a s) :=
  List.foldl_append _ _ _ _

/-- `moveGrabbed` never touches the constraint state. -/
theorem runDrag_moves (n : ℕ) (s : DragState) :
    runDrag (List.replicate n DragOp.move) s = s := by
  induction n with
  | zero => rfl
  | succ m ih => simpa [List.replicate_succ, runDrag, List.foldl_cons] using ih

/-- With no `grabBox` call, a state holding no constraint stays
unchanged. -/
theorem runDrag_no_grab (ops : List DragOp) (s : DragState)
    (hg : DragOp.grab ∉ ops) (hmc : s.mouseConstraint = none) :
    runDrag ops s = s := by
  induction ops with
  | nil => rfl
  | cons op t ih =>
    cases op with
    | grab => exact absurd (List.mem_cons_self _ _) hg
    | move =>
      have : runDrag t s = s := ih (fun h => hg (List.mem_cons_of_mem _ h))
      simpa [runDrag, List.foldl_cons, dragStep] using this
    | release =>
      have : runDrag t s = s := ih (fun h => hg (List.mem_cons_of_mem _ h))
      simpa [runDrag, List.foldl_cons, dragStep, hmc] using this

/-- A prefix of a sequence with no double grab has no double grab. -/
theorem noDoubleGrab_append (g : Bool) (pre suf : List DragOp)
    (h : noDoubleGrab g (pre ++ suf) = true) : noDoubleGrab g pre = true := by
  induction pre generalizing g with
  | nil => rfl
  | cons op t ih =>
    cases op with
    | grab =>
      simp only [List.cons_append, noDoubleGrab, Bool.and_eq_true] at h ⊢
      exact ⟨h.1, ih true h.2⟩
    | move =>
      simp only [List.cons_append, noDoubleGrab] at h ⊢
      exact ih g h
    | release =>
      simp only [List.cons_append, noDoubleGrab] at h ⊢
      exact ih false h

/-- Invariant preservation: starting from a state whose World holds
exactly the held constraint (or nothing), any sequence of drag calls
without a double grab preserves that shape. -/
theorem runDrag_inv (ops : List DragOp) :
    ∀ s : DragState, DragInv s →
      noDoubleGrab s.mouseConstraint.isSome ops = true →
      DragInv (runDrag ops s) := by
  induction ops with
  | nil => exact fun s h _ => h
  | cons op t ih =>
    intro s hInv hnd
    cases op with
    | grab =>
      have hg : s.mouseConstraint.isSome = false ∧ noDoubleGrab true t = true := by
        rcases Bool.and_eq_true _ _ |>.mp hnd with ⟨h1, h2⟩
        exact ⟨by simpa using h1, h2⟩
      have hmc : s.mouseConstraint = none := Option.not_isSome_iff_eq_none.mp (by simp [hg.1])
      have hc0 : s.constraints = [] := by
        have := hInv.2
        rw [hmc] at this
        exact this
      have hstep : dragStep s DragOp.grab
          = { s with
              hasMouseBody := true
              constraints := s.constraints ++ [s.nextId]
              mouseConstraint := some s.nextId
              nextId := s.nextId + 1 } := by
        simp [dragStep, hInv.1]
      have hInv' : DragInv (dragStep s DragOp.grab) := by
        rw [hstep]
        exact ⟨hInv.1, by simp [hc0]⟩
      have hflag : (dragStep s DragOp.grab).mouseConstraint.isSome = true := by
        rw [hstep]
        rfl
      have h2 := ih (dragStep s DragOp.grab) hInv' (by rw [hflag]; exact hg.2)
      simpa [runDrag, List.foldl_cons] using h2
    | move =>
      have h2 := ih s hInv (by simpa [noDoubleGrab] using hnd)
      simpa [runDrag, List.foldl_cons, dragStep] using h2
    | release =>
      have hnd' : noDoubleGrab false t = true := by simpa [noDoubleGrab] using hnd
      cases hmc : s.mouseConstraint with
      | none =>
        have hstep : dragStep s DragOp.release = s := by simp [dragStep, hmc]
        have h2 := ih s hInv (by rw [hmc]; exact hnd')
        simpa [runDrag, List.foldl_cons, hstep] using h2
      | some c =>
        have hc : s.constraints = [c] := by
          have := hInv.2
          rw [hmc] at this
          exact this
        have hstep : dragStep s DragOp.release
            = { s with constraints := s.constraints.erase c, mouseConstraint := none } := by
          simp [dragStep, hmc]
        have hInv' : DragInv (dragStep s DragOp.release) := by
          rw [hstep]
          refine ⟨hInv.1, ?_⟩
          simp [hc]
        have hflag : (dragStep s DragOp.release).mouseConstraint.isSome = false := by
          rw [hstep]
          rfl
        have h2 := ih (dragStep s DragOp.release) hInv' (by rw [hflag]; exact hnd')
        simpa [runDrag, List.foldl_cons] using h2

/-- C6 counterexample: two `grabBox` calls in a row (no release in
between) leave two constraints registered in the World — the first one
is orphaned when `mouseConstraint` is overwritten — so "at most one
drag constraint at any time" fails, and the following `releaseBox`
removes only the latest, leaving one behind. -/
theorem claim_C6_counterexample :
    (runDrag [DragOp.grab, DragOp.grab] dragInit).constraints.length = 2 ∧
    ¬ (runDrag [DragOp.grab, DragOp.grab] dragInit).constraints.length ≤ 1 ∧
    (runDrag [DragOp.grab, DragOp.grab, DragOp.release] dragInit).constraints.length = 1 := by
  refine ⟨rfl, by decide, ?_⟩
  show ([0, 1].erase 1).length = 1
  rfl

/-- C6 (amended): provided no `grabBox` occurs while a grab is already
active (grabs and releases alternate, the discipline of mouse-down/up
wiring), every prefix of the call sequence leaves at most one
constraint in the World, no constraint exists before the first grab,
and a grab followed by any number of `moveGrabbed` calls and one
`releaseBox` leaves exactly zero constraints. -/
theorem claim_C6_theorem :
    (∀ ops pre suf : List DragOp, ops = pre ++ suf → noDoubleGrab false ops = true →
      (runDrag pre dragInit).constraints.length ≤ 1 ∧
      (DragOp.grab ∉ pre → (runDrag pre dragInit).constraints = [])) ∧
    (∀ n : ℕ,
      (runDrag (DragOp.grab :: (List.replicate n DragOp.move ++ [DragOp.release]))
        dragInit).constraints = []) := by
  constructor
  · intro ops pre suf hsplit hnd
    subst hsplit
    have hpre : noDoubleGrab false pre = true := noDoubleGrab_append false pre suf hnd
    have hInv0 : DragInv dragInit := ⟨rfl, rfl⟩
    have hInv : DragInv (runDrag pre dragInit) :=
      runDrag_inv pre dragInit hInv0 hpre
    constructor
    · rcases hInv with ⟨-, hc⟩
      cases hmc : (runDrag pre dragInit).mouseConstraint with
      | none =>
        rw [hmc] at hc
        simp [hc]
      | some c =>
        rw [hmc] at hc
        simp [hc]
    · intro hg
      rw [runDrag_no_grab pre dragInit hg rfl]
      rfl
  · intro n
    have e1 : DragOp.grab :: (List.replicate n DragOp.move ++ [DragOp.release])
        = [DragOp.grab] ++ (List.replicate n DragOp.move ++ [DragOp.release]) := rfl
    rw [e1, runDrag_append, runDrag_append, runDrag_moves]
    rfl

/-- C6 witness: the amended statement instantiated on the concrete
sequence grab · move · release (and, for the release clause, two
intermediate moves). -/
theorem claim_C6_witness :
    (runDrag [DragOp.grab, DragOp.move] dragInit).constraints.length ≤ 1 ∧
    (runDrag (DragOp.grab :: (List.replicate 2 DragOp.move ++ [DragOp.release]))
      dragInit).constraints = [] :=
  ⟨(claim_C6_theorem.1 [DragOp.grab, DragOp.move, DragOp.release]
      [DragOp.grab, DragOp.move] [DragOp.release] rfl (by decide)).1,
   claim_C6_theorem.2 2⟩

/-- The canonicalized quaternion always has a nonnegative scalar
part. -/
theorem canonicalizeQuaternionR_w_nonneg (q : QuatR) :
    0 ≤ (canonicalizeQuaternionR q).w := by
  unfold canonicalizeQuaternionR
  split_ifs with h
  · rcases h with h | ⟨h, -⟩
    · simp only
      linarith
    · simp only [h, neg_zero, le_refl]
  · push_neg at h
    exact h.1

/-- C9: the sign canonicalization (`canonicalizeQuaternion`, also the
sign step of `normalizeAndCanonicalizeQuaternion`) is idempotent:
applying it twice gives exactly the result of applying it once. -/
theorem claim_C9_theorem (q : QuatR) :
    canonicalizeQuaternionR (canonicalizeQuaternionR q) = canonicalizeQuaternionR q := by
  by_cases h1 : q.w < 0 ∨ (q.w = 0 ∧ q.x < 0)
  · have e1 : canonicalizeQuaternionR q = ⟨-q.x, -q.y, -q.z, -q.w⟩ :=
      if_pos h1
    have h2 : ¬((-q.w) < 0 ∨ ((-q.w) = 0 ∧ (-q.x) < 0)) := by
      push_neg
      rcases h1 with h | ⟨hw, hx⟩
      · exact ⟨by linarith, fun h0 => by linarith⟩
      · exact ⟨by linarith, fun _ => by linarith⟩
    rw [e1]
    unfold canonicalizeQuaternionR
    exact if_neg h2
  · have e1 : canonicalizeQuaternionR q = q := if_neg h1
    rw [e1]
    exact e1

/-- Dividing every component by a square root of the squared norm
yields a quaternion of norm exactly 1. -/
theorem qnormR_scale_inv (q : QuatR) (n : ℝ) (hn : n * n = qnormSqR q) (hne : n ≠ 0) :
    qnormR ⟨q.x / n, q.y / n, q.z / n, q.w / n⟩ = 1 := by
  have hSne : qnormSqR q ≠ 0 := by
    rw [← hn]
    exact mul_ne_zero hne hne
  have hsq : qnormSqR ⟨q.x / n, q.y / n, q.z / n, q.w / n⟩ = 1 := by
    show (q.x / n) * (q.x / n) + (q.y / n) * (q.y / n) + (q.z / n) * (q.z / n)
        + (q.w / n) * (q.w / n) = 1
    rw [div_mul_div_comm, div_mul_div_comm, div_mul_div_comm, div_mul_div_comm,
        div_add_div_same, div_add_div_same, div_add_div_same, hn]
    exact div_self hSne
  unfold qnormR
  rw [hsq, Real.sqrt_one]

/-- C8: `normalizeQuaternion` returns the identity `(0,0,0,1)` when
the norm is below `1e-8`, and otherwise a quaternion of unit norm
(deviation 0, so certainly within `1e-6`); and for every input of
nonzero norm, `canonicalize(normalize(q))` has `w ≥ 0`;
`normalizeAndCanonicalizeQuaternion` is exactly the composition. -/
theorem claim_C8_theorem (q : QuatR) :
    (qnormR q < 1e-8 → normalizeQuaternionR q = ⟨0, 0, 0, 1⟩) ∧
    (1e-8 ≤ qnormR q → |qnormR (normalizeQuaternionR q) - 1| ≤ 1e-6) ∧
    (qnormR q ≠ 0 → 0 ≤ (canonicalizeQuaternionR (normalizeQuaternionR q)).w) ∧
    normalizeAndCanonicalizeQuaternionR q = canonicalizeQuaternionR (normalizeQuaternionR q) := by
  refine ⟨fun h => if_pos h, fun h => ?_, fun _ => canonicalizeQuaternionR_w_nonneg _, rfl⟩
  have hlt : ¬ qnormR q < 1e-8 := not_lt.mpr h
  have hpos : 0 < qnormR q := lt_of_lt_of_le (by norm_num) h
  have hne : qnormR q ≠ 0 := ne_of_gt hpos
  have e : normalizeQuaternionR q
      = ⟨q.x / qnormR q, q.y / qnormR q, q.z / qnormR q, q.w / qnormR q⟩ :=
    if_neg hlt
  have hS : (0 : ℝ) ≤ qnormSqR q := by
    have hx := mul_self_nonneg q.x
    have hy := mul_self_nonneg q.y
    have hz := mul_self_nonneg q.z
    have hw := mul_self_nonneg q.w
    unfold qnormSqR
    linarith
  have hnn : qnormR q * qnormR q = qnormSqR q := Real.mul_self_sqrt hS
  rw [e, qnormR_scale_inv q (qnormR q) hnn hne]
  norm_num

/-- C8 witness: at the concrete input `(0, 0, 0, 2)` (norm 2, above
the `1e-8` guard and nonzero) the normalized quaternion has unit norm
within `1e-6` and the canonicalized result has `w ≥ 0`. -/
theorem claim_C8_witness :
    |qnormR (normalizeQuaternionR ⟨0, 0, 0, 2⟩) - 1| ≤ 1e-6 ∧
    0 ≤ (canonicalizeQuaternionR (normalizeQuaternionR ⟨0, 0, 0, 2⟩)).w ∧
    (1e-8 : ℝ) ≤ qnormR ⟨0, 0, 0, 2⟩ := by
  have h2 : qnormR (⟨0, 0, 0, 2⟩ : QuatR) = 2 := by
    unfold qnormR qnormSqR
    norm_num
    rw [show (4 : ℝ) = 2 ^ 2 by norm_num, Real.sqrt_sq (by norm_num : (0 : ℝ) ≤ 2)]
  refine ⟨(claim_C8_theorem ⟨0, 0, 0, 2⟩).2.1 ?h1,
          (claim_C8_theorem ⟨0, 0, 0, 2⟩).2.2.1 ?h2, ?h3⟩
  case h1 => rw [h2]; norm_num
  case h2 => rw [h2]; norm_num
  case h3 => rw [h2]; norm_num
